import Mathlib

/-!
Verification of the provider configuration resolution algorithm of
`terraform-provider-pastebin` (the `Configure` method of `pastebinProvider`
in `internal/provider/provider.go`).

The embedding below translates the Go source directly:

* `TFString` embeds the Terraform framework type `types.String`, which is
  either null, unknown ("deferred"), or a known string value.
* `Diagnostic` embeds a framework diagnostic: `attrPath = some p` for an
  attribute-level diagnostic (`AddAttributeError(path.Root(p), ...)`) and
  `attrPath = none` for a request-level diagnostic (`AddError(...)`).
* `Configure` embeds the body of the Go `Configure` method, parameterised
  over the environment lookup (`os.Getenv`, absence yields the empty
  string) and over the external URL parser (`net/url.Parse`, which returns
  a nil URL together with a non-nil error exactly when parsing fails, so it
  is embedded as `String → Option GoURL`).

Every diagnostic appended by the Go `Configure` is an error-severity
diagnostic (`AddAttributeError` / `AddError`), so `Diagnostics.HasError()`
coincides with nonemptiness of the accumulated diagnostic list.
-/

/-- Terraform framework `types.String`: a value that is null, unknown
(deferred until another computation finishes), or a known string. -/
inductive TFString where
  | null
  | unknown
  | value (s : String)
deriving DecidableEq, Repr

/-- Go `types.String.IsUnknown()`. -/
def TFString.isUnknown : TFString → Bool
  | .unknown => true
  | _ => false

/-- Go `types.String.IsNull()`. -/
def TFString.isNull : TFString → Bool
  | .null => true
  | _ => false

/-- Go `types.String.ValueString()`: the known value, or the empty string
for a null or unknown value. -/
def TFString.valueString : TFString → String
  | .value s => s
  | _ => ""

/-- A framework diagnostic. `attrPath = some p` embeds
`AddAttributeError(path.Root(p), summary, detail)`; `attrPath = none`
embeds the request-level `AddError(summary, detail)`. -/
structure Diagnostic where
  attrPath : Option String
  summary : String
  detail : String
deriving DecidableEq, Repr

/-- Go `pastebinProviderModel`: the provider configuration block with the
three optional string attributes `host`, `dev_key`, `user_key`. -/
structure PastebinProviderModel where
  host : TFString
  devKey : TFString
  userKey : TFString
deriving DecidableEq, Repr

/-- The result of a successful `url.Parse`: an opaque parsed URL value,
carrying the raw string it was parsed from. -/
structure GoURL where
  raw : String
deriving DecidableEq, Repr

/-- The external pastebin API client handle. -/
structure Client where
  hostUrl : GoURL
  devKey : String
  userKey : String
deriving DecidableEq, Repr

/-- Modelled from the spec: the external client constructor
`pastebin.New(*hostUrl, devKey, userKey)` from the separate
`pastebin-client-go` library (not part of this repository). In the source
it is called with a single-value assignment, so it returns a client and
has no error return; the model records its three arguments. -/
def pastebinNew (hostUrl : GoURL) (devKey userKey : String) : Client :=
  ⟨hostUrl, devKey, userKey⟩

/-- The relevant fields of the Go `provider.ConfigureResponse`:
the accumulated diagnostics and the two client slots
`resp.DataSourceData` / `resp.ResourceData`. -/
structure ConfigureResponse where
  diagnostics : List Diagnostic
  dataSourceData : Option Client
  resourceData : Option Client
deriving DecidableEq, Repr

/-- Go `resp.Diagnostics.HasError()`. Every diagnostic appended in
`Configure` is an error, so this is nonemptiness of the list. -/
def hasError (ds : List Diagnostic) : Bool :=
  !ds.isEmpty

/-- The diagnostic added when `config.Host.IsUnknown()` (provider.go lines 83-90). -/
def unknownHostDiag : Diagnostic :=
  ⟨some ("host"), "Unknown PasteBin API Host",
   "The provider cannot create the PasteBin API client as there is an unknown configuration value for the PasteBin API host. " ++
   "Either target apply the source of the value first, set the value statically in the configuration, or use the PASTEBIN_HOST environment variable."⟩

/-- The diagnostic added when `config.DevKey.IsUnknown()` (provider.go lines 92-99). -/
def unknownDevKeyDiag : Diagnostic :=
  ⟨some ("dev_key"), "Unknown PasteBin API Dev Key",
   "The provider cannot create the PasteBin API client as there is an unknown configuration value for the PasteBin API dev key. " ++
   "Either target apply the source of the value first, set the value statically in the configuration, or use the PASTEBIN_DEV_KEY environment variable."⟩

/-- The diagnostic added when `config.UserKey.IsUnknown()` (provider.go lines 101-108). -/
def unknownUserKeyDiag : Diagnostic :=
  ⟨some ("user_key"), "Unknown PasteBin API User Key",
   "The provider cannot create the PasteBin API client as there is an unknown configuration value for the PasteBin API user key. " ++
   "Either target apply the source of the value first, set the value statically in the configuration, or use the PASTEBIN_USER_KEY environment variable."⟩

/-- The diagnostic added when `url.Parse(host)` fails (provider.go lines 137-146). -/
def invalidHostDiag : Diagnostic :=
  ⟨some ("host"), "Invalid PasteBin API Host",
   "The provider cannot create the PasteBin API client as the provided host is not a valid URL. " ++
   "Ensure the host value or the PASTEBIN_HOST environment variable is set to a valid url. " ++
   "If you leave the host value empty, the default \x27https://pastebin.com\x27 url is used."⟩

/-- The diagnostic added when the resolved dev key is empty (provider.go lines 148-156). -/
def missingDevKeyDiag : Diagnostic :=
  ⟨some ("dev_key"), "Missing PasteBin API Dev Key",
   "The provider cannot create the PasteBin API client as there is a missing or empty value for the PasteBin API dev key. " ++
   "Set the dev_key value in the configuration or use the PASTEBIN_DEV_KEY environment variable. " ++
   "If either is already set, ensure the value is not empty."⟩

/-- The diagnostic added when the resolved user key is empty (provider.go
lines 158-166). Note that its guidance text names the `dev_key`
configuration value, not `user_key`, exactly as in the source. -/
def missingUserKeyDiag : Diagnostic :=
  ⟨some ("user_key"), "Missing PasteBin API User Key",
   "The provider cannot create the PasteBin API client as there is a missing or empty value for the PasteBin API user key. " ++
   "Set the dev_key value in the configuration or use the PASTEBIN_USER_KEY environment variable. " ++
   "If either is already set, ensure the value is not empty."⟩

/-- The request-level diagnostic of provider.go lines 174-182
(`resp.Diagnostics.AddError`), whose detail ends with `err.Error()`. -/
def unableToCreateClientDiag (errMsg : String) : Diagnostic :=
  ⟨none, "Unable to Create PasteBin API Client",
   "An unexpected error occurred when creating the PasteBin API client. " ++
   "If the error is not clear, please contact the provider developers.\n\n" ++
   "PasteBin Client Error: " ++ errMsg⟩

/-- The unknown-value diagnostics accumulated by provider.go lines 83-108:
one attribute-level diagnostic per unknown field, all three fields checked. -/
def unknownDiags (config : PastebinProviderModel) : List Diagnostic :=
  (if config.host.isUnknown then [unknownHostDiag] else []) ++
  (if config.devKey.isUnknown then [unknownDevKeyDiag] else []) ++
  (if config.userKey.isUnknown then [unknownUserKeyDiag] else [])

/-- Precedence resolution of one field (provider.go lines 114-130): start
from the environment value (`host := os.Getenv(...)`) and override it with
the configuration value whenever the configuration value is not null
(`if !config.Host.IsNull() { host = config.Host.ValueString() }`). -/
def resolveField (input : TFString) (envValue : String) : String :=
  if !input.isNull then input.valueString else envValue

/-- The host value after precedence resolution (provider.go lines 116, 120-122). -/
def resolvedHost (config : PastebinProviderModel) (env : String → String) : String :=
  resolveField config.host (env ("PASTEBIN_HOST"))

/-- The dev key after precedence resolution (provider.go lines 117, 124-126). -/
def resolvedDevKey (config : PastebinProviderModel) (env : String → String) : String :=
  resolveField config.devKey (env ("PASTEBIN_DEV_KEY"))

/-- The user key after precedence resolution (provider.go lines 118, 128-130). -/
def resolvedUserKey (config : PastebinProviderModel) (env : String → String) : String :=
  resolveField config.userKey (env ("PASTEBIN_USER_KEY"))

/-- The host value after defaulting (provider.go lines 134-136):
`if host == "" { host = "https://pastebin.com" }`. -/
def defaultedHost (config : PastebinProviderModel) (env : String → String) : String :=
  if resolvedHost config env = "" then "https://pastebin.com" else resolvedHost config env

/-- The validation diagnostics accumulated by provider.go lines 134-166:
invalid host URL, missing dev key, missing user key. All three checks run
and their diagnostics accumulate in this order. -/
def validationDiags (parse : String → Option GoURL) (config : PastebinProviderModel)
    (env : String → String) : List Diagnostic :=
  (if (parse (defaultedHost config env)).isNone then [invalidHostDiag] else []) ++
  (if resolvedDevKey config env = "" then [missingDevKeyDiag] else []) ++
  (if resolvedUserKey config env = "" then [missingUserKeyDiag] else [])

/-- Embedding of the Go `Configure` method (provider.go lines 71-188),
parameterised over the environment lookup `env` (`os.Getenv`; an absent
variable yields the empty string) and over the external URL parser `parse`
(`net/url.Parse`; `none` embeds the case `err != nil || hostUrl == nil`).
The decoding of the configuration block (`req.Config.Get`) is assumed to
succeed, since `config` is already typed.

The final `if (parse ...).isNone` test inside the `some` branch embeds the
Go check `if err != nil` on line 174, which re-reads the `err` value
returned by `url.Parse` on line 137: `pastebin.New` itself returns no
error. -/
def Configure (parse : String → Option GoURL) (config : PastebinProviderModel)
    (env : String → String) : ConfigureResponse :=
  if hasError (unknownDiags config) then
    ⟨unknownDiags config, none, none⟩
  else
    let diags := unknownDiags config ++ validationDiags parse config env
    if hasError diags then
      ⟨diags, none, none⟩
    else
      match parse (defaultedHost config env) with
      | none =>
        -- Unreachable: a failed parse forces `invalidHostDiag` into
        -- `validationDiags`, so `hasError diags` above is true. (Go would
        -- dereference the nil pointer `*hostUrl` here.)
        ⟨diags, none, none⟩
      | some u =>
        let client := pastebinNew u (resolvedDevKey config env) (resolvedUserKey config env)
        if (parse (defaultedHost config env)).isNone then
          ⟨diags ++ [unableToCreateClientDiag ("")], none, none⟩
        else
          ⟨diags, some client, some client⟩

/-- Modelled from the spec: the external URL parser `net/url.Parse`, which
is not part of this repository. The spec requires only that ordinary
absolute URLs such as `https://pastebin.com` and `http://example.com`
parse successfully and that a string such as `::not a url::` fails; Go
rejects a URL whose first character is a colon (missing protocol scheme,
code point 58) and any URL containing an ASCII control character. This
concrete model, used to instantiate witnesses, captures exactly those
failure cases. -/
def goURLParse (s : String) : Option GoURL :=
  if s.data.head? = some (Char.ofNat 58) ||
      s.data.any (fun c => c.toNat < 32 || c.toNat == 127) then
    none
  else
    some ⟨s⟩

/-- Decides whether the character list `needle` occurs contiguously inside
the character list `hay`; used to state facts about diagnostic texts. -/
def occursIn (needle hay : List Char) : Bool :=
  match hay with
  | [] => needle.isEmpty
  | c :: rest => needle.isPrefixOf (c :: rest) || occursIn needle rest

set_option maxRecDepth 200000

/-- `HasError` holds exactly for a nonempty diagnostic list. -/
theorem hasError_iff (ds : List Diagnostic) : hasError ds = true ↔ ds ≠ [] := by
  simp [hasError, List.isEmpty_iff]

/-- `HasError` is false exactly for the empty diagnostic list. -/
theorem hasError_eq_false_iff (ds : List Diagnostic) : hasError ds = false ↔ ds = [] := by
  simp [hasError, List.isEmpty_iff]

/-- `HasError` of the empty diagnostic list is false. -/
theorem hasError_nil : hasError [] = false := rfl

/-- With no unknown field, the unknown-check adds no diagnostic. -/
theorem unknownDiags_eq_nil (config : PastebinProviderModel)
    (h1 : config.host.isUnknown = false) (h2 : config.devKey.isUnknown = false)
    (h3 : config.userKey.isUnknown = false) : unknownDiags config = [] := by
  simp [unknownDiags, h1, h2, h3]

/-- Output shape when some field is unknown: the unknown-check diagnostics
are returned and nothing else runs. -/
theorem configure_eq_of_unknown (parse : String → Option GoURL)
    (config : PastebinProviderModel) (env : String → String)
    (h : hasError (unknownDiags config) = true) :
    Configure parse config env = ⟨unknownDiags config, none, none⟩ := by
  simp [Configure, h]

/-- Output shape when no field is unknown but a validation fails. -/
theorem configure_eq_of_validation_failure (parse : String → Option GoURL)
    (config : PastebinProviderModel) (env : String → String)
    (h1 : unknownDiags config = [])
    (h2 : validationDiags parse config env ≠ []) :
    Configure parse config env = ⟨validationDiags parse config env, none, none⟩ := by
  have htrue : hasError (validationDiags parse config env) = true := (hasError_iff _).mpr h2
  simp [Configure, h1, hasError_nil, htrue]

/-- Output shape when resolution succeeds: empty diagnostics and a client
built from the parsed host URL and the two resolved keys, stored in both
the data-source slot and the resource slot. -/
theorem configure_eq_of_valid (parse : String → Option GoURL)
    (config : PastebinProviderModel) (env : String → String) (u : GoURL)
    (h1 : unknownDiags config = [])
    (hu : parse (defaultedHost config env) = some u)
    (hd : resolvedDevKey config env ≠ "")
    (hk : resolvedUserKey config env ≠ "") :
    Configure parse config env =
      ⟨[], some (pastebinNew u (resolvedDevKey config env) (resolvedUserKey config env)),
        some (pastebinNew u (resolvedDevKey config env) (resolvedUserKey config env))⟩ := by
  have hv : validationDiags parse config env = [] := by
    simp [validationDiags, hu, hd, hk]
  simp [Configure, h1, hv, hasError_nil, hu]

/-- When every validation passes, the validation list is empty, and
conversely the emptiness of the validation list forces every validation to
pass. -/
theorem validationDiags_eq_nil_iff (parse : String → Option GoURL)
    (config : PastebinProviderModel) (env : String → String) :
    validationDiags parse config env = [] ↔
      (parse (defaultedHost config env)).isNone = false ∧
      resolvedDevKey config env ≠ "" ∧ resolvedUserKey config env ≠ "" := by
  unfold validationDiags
  constructor
  · intro h
    refine ⟨?_, ?_, ?_⟩
    · by_contra hc
      simp only [Bool.not_eq_false] at hc
      simp [hc] at h
    · intro hc
      simp [hc] at h
    · intro hc
      simp [hc] at h
  · rintro ⟨ha, hb, hc⟩
    simp [ha, hb, hc]

/-- C1: for every field, a set (non-null) input value — including the
explicit empty string — is the resolved value verbatim regardless of the
environment value, an unset (null) input resolves to the environment
value (absence yielding the empty string), and a devKey explicitly set to
the empty string overrides any environment dev key, so the scenario
`{host: "http://example.com", devKey: "", userKey: "U"}` fails with the
missing-dev-key diagnostic for every environment. -/
theorem configure_precedence (s : String) (env : String → String) (u : GoURL)
    (parse : String → Option GoURL)
    (hp : parse ("http://example.com") = some u) :
    (∀ envValue, resolveField (TFString.value s) envValue = s) ∧
    (∀ envValue, resolveField TFString.null envValue = envValue) ∧
    Configure parse
      ⟨TFString.value ("http://example.com"), TFString.value (""), TFString.value ("U")⟩ env
      = ⟨[missingDevKeyDiag], none, none⟩ := by
  refine ⟨fun envValue => rfl, fun envValue => rfl, ?_⟩
  have h1 : unknownDiags
      ⟨TFString.value ("http://example.com"), TFString.value (""), TFString.value ("U")⟩ = [] := rfl
  have hval : validationDiags parse
      ⟨TFString.value ("http://example.com"), TFString.value (""), TFString.value ("U")⟩ env
      = [missingDevKeyDiag] := by
    simp [validationDiags, defaultedHost, resolvedHost, resolvedDevKey, resolvedUserKey,
      resolveField, TFString.isNull, TFString.valueString, hp]
  rw [configure_eq_of_validation_failure parse _ env h1 (by rw [hval]; simp), hval]

/-- C1 witness: with the concrete parser model, a non-empty environment
dev key, and the scenario input, the call fails with exactly the
missing-dev-key diagnostic. -/
theorem configure_precedence_witness :
    (∀ envValue, resolveField (TFString.value ("x")) envValue = "x") ∧
    (∀ envValue, resolveField TFString.null envValue = envValue) ∧
    Configure goURLParse
      ⟨TFString.value ("http://example.com"), TFString.value (""), TFString.value ("U")⟩
      (fun _ => "ENVDEV")
      = ⟨[missingDevKeyDiag], none, none⟩ :=
  configure_precedence ("x") (fun _ => "ENVDEV") ⟨"http://example.com"⟩ goURLParse (by decide)

/-- C2: whenever at least one field is unknown (deferred), `Configure`
returns exactly the unknown-field diagnostics — one per unknown field,
all three fields checked — produces no client, and the output does not
depend on the environment, so precedence, defaulting and validation never
run. -/
theorem configure_unknown_short_circuit (parse : String → Option GoURL)
    (config : PastebinProviderModel) (env env2 : String → String)
    (h : config.host.isUnknown = true ∨ config.devKey.isUnknown = true ∨
      config.userKey.isUnknown = true) :
    Configure parse config env = ⟨unknownDiags config, none, none⟩ ∧
    (config.host.isUnknown = true → unknownHostDiag ∈ unknownDiags config) ∧
    (config.devKey.isUnknown = true → unknownDevKeyDiag ∈ unknownDiags config) ∧
    (config.userKey.isUnknown = true → unknownUserKeyDiag ∈ unknownDiags config) ∧
    Configure parse config env = Configure parse config env2 := by
  have htrue : hasError (unknownDiags config) = true := by
    rw [hasError_iff]
    rcases h with h | h | h <;> simp [unknownDiags, h]
  refine ⟨configure_eq_of_unknown parse config env htrue, ?_, ?_, ?_, ?_⟩
  · intro hh; simp [unknownDiags, hh]
  · intro hh; simp [unknownDiags, hh]
  · intro hh; simp [unknownDiags, hh]
  · rw [configure_eq_of_unknown parse config env htrue,
      configure_eq_of_unknown parse config env2 htrue]

/-- C2 witness: with all three fields unknown and two different
environments, the call reports all three unknown-field diagnostics, no
client, and an environment-independent result. -/
theorem configure_unknown_short_circuit_witness :
    Configure goURLParse ⟨TFString.unknown, TFString.unknown, TFString.unknown⟩ (fun _ => "A")
      = ⟨unknownDiags ⟨TFString.unknown, TFString.unknown, TFString.unknown⟩, none, none⟩ ∧
    (TFString.unknown.isUnknown = true →
      unknownHostDiag ∈ unknownDiags ⟨TFString.unknown, TFString.unknown, TFString.unknown⟩) ∧
    (TFString.unknown.isUnknown = true →
      unknownDevKeyDiag ∈ unknownDiags ⟨TFString.unknown, TFString.unknown, TFString.unknown⟩) ∧
    (TFString.unknown.isUnknown = true →
      unknownUserKeyDiag ∈ unknownDiags ⟨TFString.unknown, TFString.unknown, TFString.unknown⟩) ∧
    Configure goURLParse ⟨TFString.unknown, TFString.unknown, TFString.unknown⟩ (fun _ => "A")
      = Configure goURLParse ⟨TFString.unknown, TFString.unknown, TFString.unknown⟩ (fun _ => "B") :=
  configure_unknown_short_circuit goURLParse
    ⟨TFString.unknown, TFString.unknown, TFString.unknown⟩
    (fun _ => "A") (fun _ => "B") (Or.inl rfl)

/-- C3: every call ends in exactly one of two outcomes — a response with
empty diagnostics carrying one client in both slots, or a response with a
nonempty diagnostic list and no client in either slot; a partially
resolved configuration is never exposed. -/
theorem configure_all_or_nothing (parse : String → Option GoURL)
    (config : PastebinProviderModel) (env : String → String) :
    (∃ c, Configure parse config env = ⟨[], some c, some c⟩) ∨
    ((Configure parse config env).diagnostics ≠ [] ∧
      (Configure parse config env).dataSourceData = none ∧
      (Configure parse config env).resourceData = none) := by
  by_cases h1 : hasError (unknownDiags config) = true
  · right
    rw [configure_eq_of_unknown parse config env h1]
    exact ⟨(hasError_iff _).mp h1, rfl, rfl⟩
  · have h1f : hasError (unknownDiags config) = false := by simpa using h1
    have hnil : unknownDiags config = [] := (hasError_eq_false_iff _).mp h1f
    by_cases hv : validationDiags parse config env = []
    · left
      obtain ⟨hnone, hd, hk⟩ := (validationDiags_eq_nil_iff parse config env).mp hv
      obtain ⟨u, hu⟩ : ∃ u, parse (defaultedHost config env) = some u := by
        cases hpp : parse (defaultedHost config env) with
        | none => rw [hpp] at hnone; simp at hnone
        | some u => exact ⟨u, rfl⟩
      exact ⟨_, configure_eq_of_valid parse config env u hnil hu hd hk⟩
    · right
      rw [configure_eq_of_validation_failure parse config env hnil hv]
      exact ⟨hv, rfl, rfl⟩

/-- C9: resolution is deterministic — two calls with equal configuration
and a pointwise-equal environment snapshot return equal responses. -/
theorem configure_deterministic (parse : String → Option GoURL)
    (config1 config2 : PastebinProviderModel) (env1 env2 : String → String)
    (hc : config1 = config2) (he : ∀ k, env1 k = env2 k) :
    Configure parse config1 env1 = Configure parse config2 env2 := by
  rw [hc, funext he]

/-- C9 witness: the concrete success scenario evaluated twice gives equal
responses. -/
theorem configure_deterministic_witness :
    Configure goURLParse ⟨TFString.null, TFString.value ("D"), TFString.value ("U")⟩ (fun _ => "")
      = Configure goURLParse ⟨TFString.null, TFString.value ("D"), TFString.value ("U")⟩
          (fun _ => "") :=
  configure_deterministic goURLParse
    ⟨TFString.null, TFString.value ("D"), TFString.value ("U")⟩
    ⟨TFString.null, TFString.value ("D"), TFString.value ("U")⟩
    (fun _ => "") (fun _ => "") rfl (fun _ => rfl)

/-- C4: a host that resolves to the empty string after precedence
resolution is defaulted to exactly `https://pastebin.com`, and the
scenario `{host: unset, devKey: "D", userKey: "U"}` with an empty
environment succeeds with the client built from the default host URL and
the two supplied keys. -/
theorem configure_host_default (parse : String → Option GoURL)
    (config : PastebinProviderModel) (env : String → String) (u : GoURL)
    (hp : parse ("https://pastebin.com") = some u) :
    (resolvedHost config env = "" → defaultedHost config env = "https://pastebin.com") ∧
    (config.host = TFString.null → env ("PASTEBIN_HOST") = "" →
      config.devKey = TFString.value ("D") → config.userKey = TFString.value ("U") →
      Configure parse config env =
        ⟨[], some (pastebinNew u ("D") ("U")), some (pastebinNew u ("D") ("U"))⟩) := by
  constructor
  · intro h
    simp [defaultedHost, h]
  · intro hh he hd hk
    have h1 : unknownDiags config = [] := by
      simp [unknownDiags, hh, hd, hk, TFString.isUnknown]
    have hhost : defaultedHost config env = "https://pastebin.com" := by
      simp [defaultedHost, resolvedHost, resolveField, hh, he, TFString.isNull]
    have hu : parse (defaultedHost config env) = some u := by rw [hhost]; exact hp
    have hdk : resolvedDevKey config env = "D" := by
      simp [resolvedDevKey, resolveField, hd, TFString.isNull, TFString.valueString]
    have huk : resolvedUserKey config env = "U" := by
      simp [resolvedUserKey, resolveField, hk, TFString.isNull, TFString.valueString]
    have hres := configure_eq_of_valid parse config env u h1 hu
      (by rw [hdk]; simp) (by rw [huk]; simp)
    rw [hres, hdk, huk]

/-- C4 witness: the scenario evaluated with the concrete parser model and
the empty environment yields the default-host success response. -/
theorem configure_host_default_witness :
    Configure goURLParse ⟨TFString.null, TFString.value ("D"), TFString.value ("U")⟩ (fun _ => "")
      = ⟨[], some (pastebinNew ⟨"https://pastebin.com"⟩ ("D") ("U")),
          some (pastebinNew ⟨"https://pastebin.com"⟩ ("D") ("U"))⟩ :=
  (configure_host_default goURLParse
    ⟨TFString.null, TFString.value ("D"), TFString.value ("U")⟩ (fun _ => "")
    ⟨"https://pastebin.com"⟩ (by decide)).2 rfl rfl rfl rfl

/-- C5: with no unknown field, an empty resolved dev key fails the call
with the missing-dev-key diagnostic, an empty resolved user key
independently fails it with the missing-user-key diagnostic, and when
both keys are empty both diagnostics are reported in the same call. -/
theorem configure_missing_keys (parse : String → Option GoURL)
    (config : PastebinProviderModel) (env : String → String)
    (h1 : config.host.isUnknown = false) (h2 : config.devKey.isUnknown = false)
    (h3 : config.userKey.isUnknown = false) :
    (resolvedDevKey config env = "" →
      missingDevKeyDiag ∈ (Configure parse config env).diagnostics ∧
      (Configure parse config env).dataSourceData = none) ∧
    (resolvedUserKey config env = "" →
      missingUserKeyDiag ∈ (Configure parse config env).diagnostics ∧
      (Configure parse config env).dataSourceData = none) ∧
    (resolvedDevKey config env = "" → resolvedUserKey config env = "" →
      missingDevKeyDiag ∈ (Configure parse config env).diagnostics ∧
      missingUserKeyDiag ∈ (Configure parse config env).diagnostics) := by
  have hnil := unknownDiags_eq_nil config h1 h2 h3
  refine ⟨?_, ?_, ?_⟩
  · intro hd
    have hne : validationDiags parse config env ≠ [] := by
      intro hc
      exact ((validationDiags_eq_nil_iff parse config env).mp hc).2.1 hd
    rw [configure_eq_of_validation_failure parse config env hnil hne]
    exact ⟨by simp [validationDiags, hd], rfl⟩
  · intro hk
    have hne : validationDiags parse config env ≠ [] := by
      intro hc
      exact ((validationDiags_eq_nil_iff parse config env).mp hc).2.2 hk
    rw [configure_eq_of_validation_failure parse config env hnil hne]
    exact ⟨by simp [validationDiags, hk], rfl⟩
  · intro hd hk
    have hne : validationDiags parse config env ≠ [] := by
      intro hc
      exact ((validationDiags_eq_nil_iff parse config env).mp hc).2.1 hd
    rw [configure_eq_of_validation_failure parse config env hnil hne]
    exact ⟨by simp [validationDiags, hd], by simp [validationDiags, hk]⟩

/-- C5 witness: with every field null and an empty environment, one call
reports the missing-dev-key and missing-user-key diagnostics together. -/
theorem configure_missing_keys_witness :
    missingDevKeyDiag ∈
      (Configure goURLParse ⟨TFString.null, TFString.null, TFString.null⟩
        (fun _ => "")).diagnostics ∧
    missingUserKeyDiag ∈
      (Configure goURLParse ⟨TFString.null, TFString.null, TFString.null⟩
        (fun _ => "")).diagnostics :=
  (configure_missing_keys goURLParse ⟨TFString.null, TFString.null, TFString.null⟩
    (fun _ => "") rfl rfl rfl).2.2 rfl rfl

/-- C6: with no unknown field, valid non-empty keys and a defaulted host
the URL parser rejects, the call fails with exactly the invalid-host
attribute diagnostic and no client. -/
theorem configure_invalid_host (parse : String → Option GoURL)
    (config : PastebinProviderModel) (env : String → String)
    (h1 : config.host.isUnknown = false) (h2 : config.devKey.isUnknown = false)
    (h3 : config.userKey.isUnknown = false)
    (hhost : parse (defaultedHost config env) = none)
    (hd : resolvedDevKey config env ≠ "") (hk : resolvedUserKey config env ≠ "") :
    Configure parse config env = ⟨[invalidHostDiag], none, none⟩ := by
  have hnil := unknownDiags_eq_nil config h1 h2 h3
  have hval : validationDiags parse config env = [invalidHostDiag] := by
    simp [validationDiags, hhost, hd, hk]
  rw [configure_eq_of_validation_failure parse config env hnil (by rw [hval]; simp), hval]

/-- C6 witness: the host `::not a url::` fails the parser model, so with
valid keys the call returns exactly the invalid-host diagnostic. -/
theorem configure_invalid_host_witness :
    Configure goURLParse
      ⟨TFString.value ("::not a url::"), TFString.value ("D"), TFString.value ("U")⟩
      (fun _ => "")
      = ⟨[invalidHostDiag], none, none⟩ :=
  configure_invalid_host goURLParse
    ⟨TFString.value ("::not a url::"), TFString.value ("D"), TFString.value ("U")⟩
    (fun _ => "") rfl rfl rfl (by decide) (by decide) (by decide)

/-- C7: at an input whose user key resolves empty, the call emits the
missing-user-key diagnostic targeting the `user_key` attribute, but the
guidance text of that diagnostic names the `dev_key` configuration value
— the substring `Set the dev_key value` occurs in it while `user_key`
never occurs in it — so the message does not direct the user to the
user_key configuration value as the claim requires (it does name the
PASTEBIN_USER_KEY environment variable). -/
theorem configure_user_key_message_names_dev_key :
    Configure goURLParse ⟨TFString.null, TFString.value ("D"), TFString.null⟩ (fun _ => "")
      = ⟨[missingUserKeyDiag], none, none⟩ ∧
    missingUserKeyDiag.attrPath = some ("user_key") ∧
    occursIn (("Set the dev_key value").data) (missingUserKeyDiag.detail.data) = true ∧
    occursIn (("user_key").data) (missingUserKeyDiag.detail.data) = false ∧
    occursIn (("PASTEBIN_USER_KEY").data) (missingUserKeyDiag.detail.data) = true :=
  ⟨by decide, rfl, by decide, by decide, by decide⟩

/-- Every unknown-check diagnostic targets an attribute. -/
theorem unknownDiags_all_attr (config : PastebinProviderModel) :
    ((unknownDiags config).all fun d => d.attrPath.isSome) = true := by
  unfold unknownDiags
  cases config.host.isUnknown <;> cases config.devKey.isUnknown <;>
    cases config.userKey.isUnknown <;> rfl

/-- Every validation diagnostic targets an attribute. -/
theorem validationDiags_all_attr (parse : String → Option GoURL)
    (config : PastebinProviderModel) (env : String → String) :
    ((validationDiags parse config env).all fun d => d.attrPath.isSome) = true := by
  unfold validationDiags
  cases (parse (defaultedHost config env)).isNone <;>
    by_cases hd : resolvedDevKey config env = "" <;>
    by_cases hk : resolvedUserKey config env = "" <;>
    simp [hd, hk, invalidHostDiag, missingDevKeyDiag, missingUserKeyDiag]

/-- C8: every diagnostic `Configure` ever emits targets an attribute, and
the request-level client-construction diagnostic has no attribute target,
so it is never emitted: the `if err != nil` guard after `pastebin.New`
re-checks the `url.Parse` error, which is necessarily nil once validation
passed, and `pastebin.New` itself has no error return — whenever the
configuration validates, a client is produced unconditionally, as the
concrete fully-valid input shows. -/
theorem configure_no_request_level_diag (parse : String → Option GoURL)
    (config : PastebinProviderModel) (env : String → String) :
    ((Configure parse config env).diagnostics.all fun d => d.attrPath.isSome) = true ∧
    (∀ errMsg, (unableToCreateClientDiag errMsg).attrPath = none) ∧
    Configure goURLParse
      ⟨TFString.value ("https://pastebin.com"), TFString.value ("D"), TFString.value ("U")⟩
      (fun _ => "")
      = ⟨[], some (pastebinNew ⟨"https://pastebin.com"⟩ ("D") ("U")),
          some (pastebinNew ⟨"https://pastebin.com"⟩ ("D") ("U"))⟩ := by
  refine ⟨?_, fun errMsg => rfl, by decide⟩
  by_cases h1 : hasError (unknownDiags config) = true
  · rw [configure_eq_of_unknown parse config env h1]
    exact unknownDiags_all_attr config
  · have h1f : hasError (unknownDiags config) = false := by simpa using h1
    have hnil : unknownDiags config = [] := (hasError_eq_false_iff _).mp h1f
    by_cases hv : validationDiags parse config env = []
    · obtain ⟨hnone, hd, hk⟩ := (validationDiags_eq_nil_iff parse config env).mp hv
      obtain ⟨u, hu⟩ : ∃ u, parse (defaultedHost config env) = some u := by
        cases hpp : parse (defaultedHost config env) with
        | none => rw [hpp] at hnone; simp at hnone
        | some u => exact ⟨u, rfl⟩
      rw [configure_eq_of_valid parse config env u hnil hu hd hk]
      rfl
    · rw [configure_eq_of_validation_failure parse config env hnil hv]
      exact validationDiags_all_attr parse config env

/-- C10: for every call, the resource slot holds exactly the same client
value as the data-source slot, and any client handed out is the one the
constructor built from the parsed resolved host URL and the two resolved
keys. -/
theorem configure_single_client (parse : String → Option GoURL)
    (config : PastebinProviderModel) (env : String → String) :
    (Configure parse config env).resourceData = (Configure parse config env).dataSourceData ∧
    (∀ c, (Configure parse config env).dataSourceData = some c →
      ∃ u, parse (defaultedHost config env) = some u ∧
        c = pastebinNew u (resolvedDevKey config env) (resolvedUserKey config env)) := by
  by_cases h1 : hasError (unknownDiags config) = true
  · rw [configure_eq_of_unknown parse config env h1]
    exact ⟨rfl, fun c hc => by simp at hc⟩
  · have h1f : hasError (unknownDiags config) = false := by simpa using h1
    have hnil : unknownDiags config = [] := (hasError_eq_false_iff _).mp h1f
    by_cases hv : validationDiags parse config env = []
    · obtain ⟨hnone, hd, hk⟩ := (validationDiags_eq_nil_iff parse config env).mp hv
      obtain ⟨u, hu⟩ : ∃ u, parse (defaultedHost config env) = some u := by
        cases hpp : parse (defaultedHost config env) with
        | none => rw [hpp] at hnone; simp at hnone
        | some u => exact ⟨u, rfl⟩
      rw [configure_eq_of_valid parse config env u hnil hu hd hk]
      refine ⟨rfl, fun c hc => ⟨u, hu, ?_⟩⟩
      simpa using hc.symm
    · rw [configure_eq_of_validation_failure parse config env hnil hv]
      exact ⟨rfl, fun c hc => by simp at hc⟩

/-- C10 witness: in the concrete success scenario both slots hold the
client built from the default host URL and the keys `D`, `U`. -/
theorem configure_single_client_witness :
    (Configure goURLParse ⟨TFString.null, TFString.value ("D"), TFString.value ("U")⟩
        (fun _ => "")).resourceData
      = (Configure goURLParse ⟨TFString.null, TFString.value ("D"), TFString.value ("U")⟩
          (fun _ => "")).dataSourceData ∧
    ∃ u, goURLParse (defaultedHost
        ⟨TFString.null, TFString.value ("D"), TFString.value ("U")⟩ (fun _ => "")) = some u ∧
      pastebinNew ⟨"https://pastebin.com"⟩ ("D") ("U")
        = pastebinNew u
            (resolvedDevKey ⟨TFString.null, TFString.value ("D"), TFString.value ("U")⟩
              (fun _ => ""))
            (resolvedUserKey ⟨TFString.null, TFString.value ("D"), TFString.value ("U")⟩
              (fun _ => "")) :=
  ⟨(configure_single_client goURLParse
      ⟨TFString.null, TFString.value ("D"), TFString.value ("U")⟩ (fun _ => "")).1,
    (configure_single_client goURLParse
      ⟨TFString.null, TFString.value ("D"), TFString.value ("U")⟩ (fun _ => "")).2
      (pastebinNew ⟨"https://pastebin.com"⟩ ("D") ("U")) (by decide)⟩
